import Mathlib

/-!
# Verification of the portfolio website's core services

Shallow embedding of the two core services of the repository — the
`AuthService` (`src/services/AuthService.ts`) and the `ContentManager`
(`src/services/ContentManager.ts`) together with the data helpers
(`src/utils/dataHelpers.ts`) — and proofs of the spec's claims about them.

JavaScript runtime values that flow through these services are JSON data,
modelled by the inductive type `Json`.  The browser's `localStorage` and the
platform's `JSON.parse` / `JSON.stringify` pair are external collaborators of
the repository (they are not repository code); they are modelled by explicit
state records and by the `JSText` type below.  Timestamps (`Date.now()`,
millisecond epochs) are modelled as `Int`.
-/

namespace Portfolio

/-- A JSON value, the runtime data flowing through the services.
Objects are ordered association lists, as JavaScript objects preserve
insertion order. -/
inductive Json where
  | null
  | bool (b : Bool)
  | num (n : Int)
  | str (s : String)
  | arr (elems : List Json)
  | obj (fields : List (String × Json))

/-- JavaScript `typeof` on a JSON-representable value (`typeof null` is
`"object"`, and arrays are objects). -/
def jsTypeof : Json → String
  | .null => "object"
  | .bool _ => "boolean"
  | .num _ => "number"
  | .str _ => "string"
  | .arr _ => "object"
  | .obj _ => "object"

/-- JavaScript truthiness of a JSON-representable value. -/
def isTruthy : Json → Bool
  | .null => false
  | .bool b => b
  | .num n => n != 0
  | .str s => s != ""
  | .arr _ => true
  | .obj _ => true

/-- `Array.isArray`. -/
def isArr : Json → Bool
  | .arr _ => true
  | _ => false

/-- The own string-keyed fields of a value, as used by object spread
`\x7b...v\x7d`: objects contribute their fields, `null`/booleans/numbers
contribute nothing.  (A JavaScript string would contribute its character
indices; no string is ever spread as a `profile`/`config` section in the
properties proved below.) -/
def objFields : Json → List (String × Json)
  | .obj kvs => kvs
  | _ => []

/-- JavaScript property read `v[k]` returning `undefined` as `none`
(own properties only; the six section names never collide with prototype
properties). -/
def objGet (v : Json) (k : String) : Option Json :=
  match v with
  | .obj kvs => List.lookup k kvs
  | _ => none

/-- The JavaScript `in` operator restricted to JSON-parsed values: own keys of
an object; for an array, `length` and the element indices. -/
def hasProp (v : Json) (k : String) : Bool :=
  match v with
  | .obj kvs => kvs.any (fun kv => kv.1 == k)
  | .arr xs => k == "length" || (List.range xs.length).any (fun i => toString i == k)
  | _ => false

/-- Property read defaulting to `null`; only used where presence was already
established. -/
def propVal (v : Json) (k : String) : Json :=
  (objGet v k).getD .null

/-- JavaScript object spread `\x7b...a, ...b\x7d` on association lists:
the keys of `a` in order (values overridden by `b` where both have the key),
followed by the keys of `b` that are not in `a`. -/
def spreadObj (a b : List (String × Json)) : List (String × Json) :=
  a.map (fun kv => (kv.1, (List.lookup kv.1 b).getD kv.2)) ++
    b.filter (fun kv => (List.lookup kv.1 a).isNone)

/-- Object spread of two JSON values producing a fresh object. -/
def jsonSpread (a b : Json) : Json :=
  .obj (spreadObj (objFields a) (objFields b))

/-!
## The platform JSON library (external collaborator)

The services call the ECMAScript built-ins `JSON.stringify` and `JSON.parse`.
These are not repository code; they are modelled by identifying a serialized
text with the JSON value it denotes.  `JSON.parse` recovers the value from a
rendering and throws a `SyntaxError` on malformed text, reflecting the
ECMAScript guarantee that `JSON.parse(JSON.stringify(v))` is structurally
equal to `v` for JSON-representable values.
-/

/-- A string as handled by the platform JSON library: either the rendering
`JSON.stringify(v, null, spacing)` of a JSON value, or text that `JSON.parse`
rejects. -/
inductive JSText where
  | rendered (spacing : Nat) (v : Json)
  | malformed (s : String)

/-- `JSON.stringify(v, null, spacing)`. -/
def JSON_stringify (spacing : Nat) (v : Json) : JSText :=
  .rendered spacing v

/-- `JSON.parse`: recovers the denoted value, or throws a `SyntaxError`
(modelled as `Except.error`). -/
def JSON_parse : JSText → Except Unit Json
  | .rendered _ v => .ok v
  | .malformed _ => .error ()

/-!
## Data helpers (`src/utils/dataHelpers.ts`)
-/

/-- The aggregate portfolio document (`PortfolioData` in
`src/types/portfolio.ts`): six top-level sections.  Each section holds the
JSON value occupying it at runtime. -/
structure PortfolioData where
  profile : Json
  projects : Json
  resume : Json
  certificates : Json
  socialLinks : Json
  config : Json

/-- A `Partial<PortfolioData>`: each top-level key either present with a JSON
value or absent. -/
structure PortfolioPatch where
  profile : Option Json
  projects : Option Json
  resume : Option Json
  certificates : Option Json
  socialLinks : Option Json
  config : Option Json

/-- `createDefaultPortfolioData` from `src/utils/dataHelpers.ts`: the
hard-coded zero-value document. -/
def createDefaultPortfolioData : PortfolioData :=
  { profile := .obj [("name", .str ""), ("title", .str ""), ("photo", .str ""),
      ("summary", .str ""), ("description", .str ""), ("location", .str ""),
      ("email", .str "")]
    projects := .arr []
    resume := .obj [("experience", .arr []), ("education", .arr []),
      ("skills", .arr []), ("downloadUrl", .str "")]
    certificates := .arr []
    socialLinks := .arr []
    config := .obj [("theme", .str "auto"), ("language", .str "en"),
      ("analytics", .obj [("enabled", .bool false)]),
      ("seo", .obj [("title", .str ""), ("description", .str ""),
        ("keywords", .arr [])])] }

/-- `mergePortfolioData(existing, updates)` from `src/utils/dataHelpers.ts`:

    return \x7b
        ...existing,
        ...updates,
        profile: updates.profile ? \x7b ...existing.profile, ...updates.profile \x7d : existing.profile,
        config: updates.config ? \x7b ...existing.config, ...updates.config \x7d : existing.config
    \x7d;

Spreading `updates` replaces every present top-level key wholesale; the
`profile` and `config` keys are then overridden by a shallow field-by-field
spread merge when the update's value is truthy, and by the existing value
otherwise (absent or falsy). -/
def mergePortfolioData (existing : PortfolioData) (updates : PortfolioPatch) : PortfolioData :=
  { profile :=
      match updates.profile with
      | some p => if isTruthy p then jsonSpread existing.profile p else existing.profile
      | none => existing.profile
    projects := updates.projects.getD existing.projects
    resume := updates.resume.getD existing.resume
    certificates := updates.certificates.getD existing.certificates
    socialLinks := updates.socialLinks.getD existing.socialLinks
    config :=
      match updates.config with
      | some c => if isTruthy c then jsonSpread existing.config c else existing.config
      | none => existing.config }

/-- Reading a parsed JSON value as a `Partial<PortfolioData>` (the unchecked
cast in `loadLocalData`): a top-level key is present iff the value is an
object owning that key. -/
def jsonToPatch (l : Json) : PortfolioPatch :=
  { profile := objGet l "profile"
    projects := objGet l "projects"
    resume := objGet l "resume"
    certificates := objGet l "certificates"
    socialLinks := objGet l "socialLinks"
    config := objGet l "config" }

/-- The JSON value of a portfolio document, with the keys in the fixed
declaration order used throughout the repository. -/
def portfolioToJson (d : PortfolioData) : Json :=
  .obj [("profile", d.profile), ("projects", d.projects), ("resume", d.resume),
    ("certificates", d.certificates), ("socialLinks", d.socialLinks),
    ("config", d.config)]

/-!
## ContentManager (`src/services/ContentManager.ts`)

The manager's observable state is the `portfolio_data` key of the persistent
store plus the in-memory cache.  Operations that can throw return a
`CallResult` paired with the state at the moment of return, so that the state
at a throw is explicit.
-/

/-- State of a `ContentManager` instance together with its slice of the
persistent store: `store` is the value of the `portfolio_data` key
(absent or a string), `cache` the in-memory copy. -/
structure CMState where
  store : Option JSText
  cache : Option Json

/-- Outcome of a void method that can throw. -/
inductive CallResult where
  | ok
  | thrown (msg : String)
deriving DecidableEq

/-- `validatePortfolioData(data)`: the structural validator run by
`importContent`.  Checks, in source order and failing fast: the value is
truthy and `typeof` object; the six required top-level properties are
present; then section types (`typeof ... === "object"` for `profile`,
`resume`, `config`; `Array.isArray` for `projects`, `certificates`,
`socialLinks`). -/
def validatePortfolioData (data : Json) : Except String Unit :=
  if !isTruthy data || jsTypeof data != "object" then
    .error "Invalid data: must be an object"
  else
    match ["profile", "projects", "resume", "certificates", "socialLinks",
        "config"].find? (fun p => !hasProp data p) with
    | some p => .error ("Invalid data: missing required property \x27" ++ p ++ "\x27")
    | none =>
      if jsTypeof (propVal data "profile") != "object" then
        .error "Invalid data: profile must be an object"
      else if !isArr (propVal data "projects") then
        .error "Invalid data: projects must be an array"
      else if jsTypeof (propVal data "resume") != "object" then
        .error "Invalid data: resume must be an object"
      else if !isArr (propVal data "certificates") then
        .error "Invalid data: certificates must be an array"
      else if !isArr (propVal data "socialLinks") then
        .error "Invalid data: socialLinks must be an array"
      else if jsTypeof (propVal data "config") != "object" then
        .error "Invalid data: config must be an object"
      else
        .ok ()

/-- `exportContent()`: throws the precondition error when the cache is empty,
otherwise returns `JSON.stringify(cache, null, 2)`. -/
def exportContent (st : CMState) : Except String JSText :=
  match st.cache with
  | none => .error "No content loaded. Call loadContent() first."
  | some c => .ok (JSON_stringify 2 c)

/-- `importContent(jsonData)`: parse, validate, then write the raw string to
the store and update the cache.  A `SyntaxError` from `JSON.parse` is caught
and rethrown as the fixed message; a validation error is rethrown unchanged.
No write happens before validation succeeds. -/
def importContent (jsonData : JSText) (st : CMState) : CallResult × CMState :=
  match JSON_parse jsonData with
  | .error _ => (.thrown "Invalid JSON data or structure", st)
  | .ok data =>
    match validatePortfolioData data with
    | .error msg => (.thrown msg, st)
    | .ok _ => (.ok, { st with store := some jsonData, cache := some data })

/-- Settlement results of the six `Promise.allSettled` fetches in
`loadDefaultData` (one per static content file); `Except.error` is a rejected
fetch (missing file, non-2xx status or unparseable body). -/
structure FetchResults where
  profile : Except Unit Json
  projects : Except Unit Json
  resume : Except Unit Json
  certificates : Except Unit Json
  socialLinks : Except Unit Json
  config : Except Unit Json

/-- `loadDefaultData()`: start from the zero-value document; each fulfilled
fetch overlays its section — object sections are spread-merged over the
default when the fetched value is truthy, array sections replace the default
only when the fetched value is an array. -/
def loadDefaultData (f : FetchResults) : PortfolioData :=
  let d := createDefaultPortfolioData
  let d := match f.profile with
    | .ok v => if isTruthy v then { d with profile := jsonSpread d.profile v } else d
    | .error _ => d
  let d := match f.projects with
    | .ok v => if isArr v then { d with projects := v } else d
    | .error _ => d
  let d := match f.resume with
    | .ok v => if isTruthy v then { d with resume := jsonSpread d.resume v } else d
    | .error _ => d
  let d := match f.certificates with
    | .ok v => if isArr v then { d with certificates := v } else d
    | .error _ => d
  let d := match f.socialLinks with
    | .ok v => if isArr v then { d with socialLinks := v } else d
    | .error _ => d
  let d := match f.config with
    | .ok v => if isTruthy v then { d with config := jsonSpread d.config v } else d
    | .error _ => d
  d

/-- `loadLocalData()`: read the `portfolio_data` key; absent gives `null`;
an unparseable value is deleted (corruption must not block loading) and gives
`null`. -/
def loadLocalData (st : CMState) : Option Json × CMState :=
  match st.store with
  | none => (none, st)
  | some t =>
    match JSON_parse t with
    | .ok v => (some v, st)
    | .error _ => (none, { st with store := none })

/-- `loadContent()`: overlay the parsed local-edits record (when truthy) on
the defaults with `mergePortfolioData`, cache and return the result. -/
def loadContent (f : FetchResults) (st : CMState) : CMState × PortfolioData :=
  let defaultData := loadDefaultData f
  let (localData, st) := loadLocalData st
  let merged :=
    match localData with
    | some l => if isTruthy l then mergePortfolioData defaultData (jsonToPatch l) else defaultData
    | none => defaultData
  ({ st with cache := some (portfolioToJson merged) }, merged)

/-!
## AuthService (`src/services/AuthService.ts`)

The service's observable state is the three store keys
(`portfolio_auth_session`, `portfolio_auth_attempts`, `portfolio_auth_lockout`)
plus the in-memory configuration.  The SHA-256 digest (`crypto.subtle`) is an
external collaborator, passed in as a function that can fail
(`Except.error` models the digest computation throwing).  All methods take the
current time `now` (`Date.now()`) explicitly and thread the state.
-/

/-- The stored session record (`AuthSession` in the source). -/
structure AuthSession where
  isAuthenticated : Bool
  loginTime : Int
  expiresAt : Int

/-- The raw content of the `portfolio_auth_session` key: either a record that
`JSON.parse` accepts, or corrupt text. -/
inductive StoredSession where
  | parsed (s : AuthSession)
  | corrupt

/-- `AuthConfig`: session timeout, attempt threshold, lockout duration. -/
structure AuthConfig where
  sessionTimeout : Int
  maxLoginAttempts : Int
  lockoutDuration : Int

/-- The service state: the three store keys plus the in-memory config.
`attempts` and `lockout` hold the numbers stored as decimal strings. -/
structure AuthState where
  session : Option StoredSession
  attempts : Option Int
  lockout : Option Int
  config : AuthConfig

/-- The stored password digest constant (`PASSWORD_HASH`). -/
def PASSWORD_HASH : String :=
  "e3e3e3e3e3e3e3e3e3e3e3e3e3e3e3e3e3e3e3e3e3e3e3e3e3e3e3e3e3e3e3e3"

/-- `Math.ceil(a / b)` for an integer numerator and positive integer
denominator (exact for the magnitudes involved). -/
def jsCeilDiv (a b : Int) : Int :=
  -((-a) / b)

/-- `logout()`: delete the session key unconditionally. -/
def logout (st : AuthState) : AuthState :=
  { st with session := none }

/-- `isLockedOut()`: `true` while `now < lockedUntil`; an expired lockout is
cleared (together with the attempt counter) as a side effect and reported as
not locked out. -/
def isLockedOut (now : Int) (st : AuthState) : Bool × AuthState :=
  match st.lockout with
  | none => (false, st)
  | some lockoutTime =>
    if now < lockoutTime then (true, st)
    else (false, { st with lockout := none, attempts := none })

/-- `getFailedAttempts()`: the stored counter, `0` when absent. -/
def getFailedAttempts (st : AuthState) : Int :=
  st.attempts.getD 0

/-- `incrementFailedAttempts()`: bump the counter; on reaching the threshold
store `lockedUntil = now + lockoutDuration`. -/
def incrementFailedAttempts (now : Int) (st : AuthState) : AuthState :=
  let attempts := getFailedAttempts st + 1
  let st := { st with attempts := some attempts }
  if attempts ≥ st.config.maxLoginAttempts then
    { st with lockout := some (now + st.config.lockoutDuration) }
  else st

/-- `clearFailedAttempts()`: remove counter and lockout. -/
def clearFailedAttempts (st : AuthState) : AuthState :=
  { st with attempts := none, lockout := none }

/-- `getSession()`: `null` when absent; corrupt data is deleted (via
`logout`) and reported as `null`; a record with `Date.now() > expiresAt` is
deleted and reported as `null`; otherwise the record is returned. -/
def getSession (now : Int) (st : AuthState) : Option AuthSession × AuthState :=
  match st.session with
  | none => (none, st)
  | some .corrupt => (none, logout st)
  | some (.parsed s) =>
    if now > s.expiresAt then (none, logout st)
    else (some s, st)

/-- `createSession()`: store a fresh authenticated record expiring at
`now + sessionTimeout`. -/
def createSession (now : Int) (st : AuthState) : AuthState :=
  { st with session := some (.parsed
      { isAuthenticated := true, loginTime := now,
        expiresAt := now + st.config.sessionTimeout }) }

/-- Result of `authenticate`. -/
structure AuthResult where
  success : Bool
  error : Option String
deriving DecidableEq

/-- `authenticate(password)`.  If locked out, fail with the remaining-minutes
message without touching the counter.  Otherwise hash the password (the body
is wrapped in try/catch: a digest failure yields the generic technical-error
result).  On a digest match clear the counter and create a session; on a
mismatch increment the counter and report either the lockout message (no
attempts remaining) or the attempts-remaining message. -/
def authenticate (hashPassword : String → Except Unit String) (password : String)
    (now : Int) (st : AuthState) : AuthResult × AuthState :=
  let (locked, st) := isLockedOut now st
  if locked then
    let lockoutUntil := st.lockout.getD 0
    let remainingTime := jsCeilDiv (lockoutUntil - now) 60000
    ({ success := false,
       error := some s!"Too many failed attempts. Try again in {remainingTime} minutes." }, st)
  else
    match hashPassword password with
    | .error _ =>
      ({ success := false, error := some "Authentication failed due to technical error." }, st)
    | .ok hashedPassword =>
      if hashedPassword == PASSWORD_HASH then
        let st := clearFailedAttempts st
        let st := createSession now st
        ({ success := true, error := none }, st)
      else
        let st := incrementFailedAttempts now st
        let remainingAttempts := st.config.maxLoginAttempts - getFailedAttempts st
        if remainingAttempts ≤ 0 then
          ({ success := false,
             error := some "Too many failed attempts. Account locked for 15 minutes." }, st)
        else
          ({ success := false,
             error := some s!"Invalid password. {remainingAttempts} attempts remaining." }, st)

/-- `isAuthenticated()`: the session's flag, `false` when `getSession` gives
`null`. -/
def isAuthenticated (now : Int) (st : AuthState) : Bool × AuthState :=
  let (session, st) := getSession now st
  ((session.map (fun s => s.isAuthenticated)).getD false, st)

/-- `getSessionTimeRemaining()`: `max(0, expiresAt - now)`, `0` with no
session. -/
def getSessionTimeRemaining (now : Int) (st : AuthState) : Int × AuthState :=
  let (session, st) := getSession now st
  match session with
  | none => (0, st)
  | some s => (max 0 (s.expiresAt - now), st)

/-- `extendSession()`: `false` with no active session; otherwise reset
`expiresAt` to `now + sessionTimeout` and return `true`. -/
def extendSession (now : Int) (st : AuthState) : Bool × AuthState :=
  let (session, st) := getSession now st
  match session with
  | none => (false, st)
  | some s =>
    (true, { st with session := some (.parsed
        { s with expiresAt := now + st.config.sessionTimeout }) })

/-!
## Concrete inputs used by the theorems below
-/

/-- A two-project document with a two-field profile, for exercising the merge
rule. -/
def mergeExampleExisting : PortfolioData :=
  { profile := .obj [("name", .str "A"), ("title", .str "B")]
    projects := .arr [.str "P1", .str "P2"]
    resume := .obj []
    certificates := .arr []
    socialLinks := .arr []
    config := .obj [("theme", .str "auto")] }

/-- A one-project overlay that also renames the profile. -/
def mergeExampleUpdate : PortfolioPatch :=
  { profile := some (.obj [("name", .str "C")])
    projects := some (.arr [.str "Q"])
    resume := none, certificates := none, socialLinks := none, config := none }

/-- A document with all six keys, array sections arrays, but `profile` and
`config` set to JSON `null` and `resume` to an array. -/
def nullSectionsDoc : Json :=
  .obj [("profile", .null), ("projects", .arr []), ("resume", .arr []),
    ("certificates", .arr []), ("socialLinks", .arr []), ("config", .null)]

/-- All six static-content fetches rejected (files absent / 404). -/
def allFetchesRejected : FetchResults :=
  ⟨.error (), .error (), .error (), .error (), .error (), .error ()⟩

/-- A store whose local-edits record is the parseable overlay
`\x7b"projects":"x"\x7d`, with an empty cache. -/
def badOverlayState : CMState :=
  ⟨some (.rendered 0 (.obj [("projects", .str "x")])), none⟩

/-- An auth state holding a session that expires at time 100. -/
def sessionAtBoundary : AuthState :=
  ⟨some (.parsed ⟨true, 0, 100⟩), none, none, ⟨1800000, 5, 900000⟩⟩

/-- A digest function matching the stored hash exactly on the password
`"good"`. -/
def c2hash : String → Except Unit String :=
  fun p => if p = "good" then .ok PASSWORD_HASH else .ok "bad"

/-!
## Association-list lemmas for object spread
-/

theorem lookup_append (k : String) (l₁ l₂ : List (String × Json)) :
    List.lookup k (l₁ ++ l₂) = (List.lookup k l₁).or (List.lookup k l₂) := by
  induction l₁ with
  | nil => simp [List.lookup]
  | cons kv t ih =>
    by_cases hk : k = kv.1
    · simp [List.lookup, hk]
    · simp [List.lookup, hk, ih, beq_eq_false_iff_ne.mpr hk]

theorem lookup_map_override (k : String) (a b : List (String × Json)) :
    List.lookup k (a.map fun kv => (kv.1, (List.lookup kv.1 b).getD kv.2)) =
      (List.lookup k a).map (fun v => (List.lookup k b).getD v) := by
  induction a with
  | nil => simp [List.lookup]
  | cons kv t ih =>
    by_cases hk : k = kv.1
    · subst hk; simp [List.lookup, ih]
    · simp [List.lookup, hk, ih, beq_eq_false_iff_ne.mpr hk]

theorem lookup_filter_keys (k : String) (a b : List (String × Json)) :
    List.lookup k (b.filter fun kv => (List.lookup kv.1 a).isNone) =
      if (List.lookup k a).isNone then List.lookup k b else none := by
  induction b with
  | nil => simp [List.lookup]
  | cons kv t ih =>
    rw [List.filter_cons]
    by_cases ha : (List.lookup kv.1 a).isNone
    · rw [if_pos (by simpa using ha)]
      by_cases hk : k = kv.1
      · subst hk; simp [List.lookup, ha]
      · simp [List.lookup, beq_eq_false_iff_ne.mpr hk, ih]
    · rw [if_neg (by simpa using ha)]
      by_cases hk : k = kv.1
      · subst hk; simp [ih, ha]
      · simp [List.lookup, beq_eq_false_iff_ne.mpr hk, ih]

/-- A key's value in the object spread `\x7b...a, ...b\x7d`: the value from
`b` when present there, otherwise the value from `a`. -/
theorem lookup_spreadObj (k : String) (a b : List (String × Json)) :
    List.lookup k (spreadObj a b) = (List.lookup k b).or (List.lookup k a) := by
  unfold spreadObj
  rw [lookup_append, lookup_map_override, lookup_filter_keys]
  cases ha : List.lookup k a with
  | none => cases hb : List.lookup k b <;> simp
  | some v => cases hb : List.lookup k b <;> simp

/-!
## The claims
-/

/-- Claim C1: `mergePortfolioData existing updates` replaces every top-level
key present in `updates` wholesale — the array sections `projects`,
`certificates`, `socialLinks` and the object section `resume` — and keeps the
existing value for absent keys, EXCEPT `profile` and `config`, which are
shallow-merged field-by-field (a field present in the update overrides, an
absent field keeps the existing value); in particular a one-project update
array over a two-project existing document yields exactly that one-project
array. -/
theorem C1_merge_replaces_wholesale_except_profile_config
    (e : PortfolioData) (u : PortfolioPatch) :
    (∀ v, u.projects = some v → (mergePortfolioData e u).projects = v) ∧
    (u.projects = none → (mergePortfolioData e u).projects = e.projects) ∧
    (∀ v, u.resume = some v → (mergePortfolioData e u).resume = v) ∧
    (u.resume = none → (mergePortfolioData e u).resume = e.resume) ∧
    (∀ v, u.certificates = some v → (mergePortfolioData e u).certificates = v) ∧
    (u.certificates = none → (mergePortfolioData e u).certificates = e.certificates) ∧
    (∀ v, u.socialLinks = some v → (mergePortfolioData e u).socialLinks = v) ∧
    (u.socialLinks = none → (mergePortfolioData e u).socialLinks = e.socialLinks) ∧
    (∀ ep up, e.profile = .obj ep → u.profile = some (.obj up) →
      ∀ k, objGet (mergePortfolioData e u).profile k =
        (List.lookup k up).or (List.lookup k ep)) ∧
    (u.profile = none → (mergePortfolioData e u).profile = e.profile) ∧
    (∀ ec uc, e.config = .obj ec → u.config = some (.obj uc) →
      ∀ k, objGet (mergePortfolioData e u).config k =
        (List.lookup k uc).or (List.lookup k ec)) ∧
    (u.config = none → (mergePortfolioData e u).config = e.config) ∧
    (∀ p d1 d2, e.projects = .arr [d1, d2] → u.projects = some (.arr [p]) →
      (mergePortfolioData e u).projects = .arr [p]) := by
  refine ⟨?_, ?_, ?_, ?_, ?_, ?_, ?_, ?_, ?_, ?_, ?_, ?_, ?_⟩
  · intro v hv; simp [mergePortfolioData, hv]
  · intro hv; simp [mergePortfolioData, hv]
  · intro v hv; simp [mergePortfolioData, hv]
  · intro hv; simp [mergePortfolioData, hv]
  · intro v hv; simp [mergePortfolioData, hv]
  · intro hv; simp [mergePortfolioData, hv]
  · intro v hv; simp [mergePortfolioData, hv]
  · intro hv; simp [mergePortfolioData, hv]
  · intro ep up he hu k
    simp [mergePortfolioData, he, hu, isTruthy, jsonSpread, objFields, objGet,
      lookup_spreadObj]
  · intro hv; simp [mergePortfolioData, hv]
  · intro ec uc he hu k
    simp [mergePortfolioData, he, hu, isTruthy, jsonSpread, objFields, objGet,
      lookup_spreadObj]
  · intro hv; simp [mergePortfolioData, hv]
  · intro p d1 d2 he hu; simp [mergePortfolioData, hu]

/-- Claim C1 witness: merging the one-project/renamed-profile update over the
two-project document gives exactly one project, `profile.name = "C"`,
`profile.title = "B"`, and an unchanged `config`. -/
theorem C1_merge_witness :
    (mergePortfolioData mergeExampleExisting mergeExampleUpdate).projects = .arr [.str "Q"] ∧
    objGet (mergePortfolioData mergeExampleExisting mergeExampleUpdate).profile "name" =
      some (.str "C") ∧
    objGet (mergePortfolioData mergeExampleExisting mergeExampleUpdate).profile "title" =
      some (.str "B") ∧
    (mergePortfolioData mergeExampleExisting mergeExampleUpdate).config =
      mergeExampleExisting.config := by
  obtain ⟨h1, h2, h3, h4, h5, h6, h7, h8, h9, h10, h11, h12, h13⟩ :=
    C1_merge_replaces_wholesale_except_profile_config mergeExampleExisting mergeExampleUpdate
  refine ⟨h13 (.str "Q") (.str "P1") (.str "P2") rfl rfl, ?_, ?_, h12 rfl⟩
  · rw [h9 [("name", .str "A"), ("title", .str "B")] [("name", .str "C")] rfl rfl "name"]
    rfl
  · rw [h9 [("name", .str "A"), ("title", .str "B")] [("name", .str "C")] rfl rfl "title"]
    rfl

/-- Claim C2: with `maxLoginAttempts = 5`, starting from no recorded failures
and no lockout, the 5th consecutive failed `authenticate` call fails with the
too-many-failed-attempts message and stores `lockedUntil = now +
lockoutDuration`; a 6th call before `lockedUntil`, even with the correct
password, fails with the remaining-time message; and a call at or after
`lockedUntil` with the correct password succeeds. -/
theorem C2_lockout_threshold
    (h : String → Except Unit String) (sess : Option StoredSession) (T D : Int)
    (p1 p2 p3 p4 p5 pc : String) (w1 w2 w3 w4 w5 : String)
    (t1 t2 t3 t4 t5 t6 t7 : Int)
    (hw1 : h p1 = .ok w1) (hn1 : w1 ≠ PASSWORD_HASH)
    (hw2 : h p2 = .ok w2) (hn2 : w2 ≠ PASSWORD_HASH)
    (hw3 : h p3 = .ok w3) (hn3 : w3 ≠ PASSWORD_HASH)
    (hw4 : h p4 = .ok w4) (hn4 : w4 ≠ PASSWORD_HASH)
    (hw5 : h p5 = .ok w5) (hn5 : w5 ≠ PASSWORD_HASH)
    (hc : h pc = .ok PASSWORD_HASH)
    (ht6 : t6 < t5 + D) (ht7 : t5 + D ≤ t7) :
    let st0 : AuthState := ⟨sess, none, none, ⟨T, 5, D⟩⟩
    let st1 := (authenticate h p1 t1 st0).2
    let st2 := (authenticate h p2 t2 st1).2
    let st3 := (authenticate h p3 t3 st2).2
    let st4 := (authenticate h p4 t4 st3).2
    let r5 := authenticate h p5 t5 st4
    let r6 := authenticate h pc t6 r5.2
    let r7 := authenticate h pc t7 r6.2
    let m := jsCeilDiv (t5 + D - t6) 60000
    r5.1 = ⟨false, some "Too many failed attempts. Account locked for 15 minutes."⟩ ∧
    r5.2.lockout = some (t5 + D) ∧
    r6.1.success = false ∧
    r6.1.error = some s!"Too many failed attempts. Try again in {m} minutes." ∧
    r7.1.success = true := by
  intro st0 st1 st2 st3 st4 r5 r6 r7 m
  have e1 : st1 = ⟨sess, some 1, none, ⟨T, 5, D⟩⟩ := by
    simp [st1, st0, authenticate, isLockedOut, hw1, hn1, incrementFailedAttempts,
      getFailedAttempts]
  have e2 : st2 = ⟨sess, some 2, none, ⟨T, 5, D⟩⟩ := by
    simp [st2, e1, authenticate, isLockedOut, hw2, hn2, incrementFailedAttempts,
      getFailedAttempts]
  have e3 : st3 = ⟨sess, some 3, none, ⟨T, 5, D⟩⟩ := by
    simp [st3, e2, authenticate, isLockedOut, hw3, hn3, incrementFailedAttempts,
      getFailedAttempts]
  have e4 : st4 = ⟨sess, some 4, none, ⟨T, 5, D⟩⟩ := by
    simp [st4, e3, authenticate, isLockedOut, hw4, hn4, incrementFailedAttempts,
      getFailedAttempts]
  have e5 : r5 = (⟨false, some "Too many failed attempts. Account locked for 15 minutes."⟩,
      ⟨sess, some 5, some (t5 + D), ⟨T, 5, D⟩⟩) := by
    simp [r5, e4, authenticate, isLockedOut, hw5, hn5, incrementFailedAttempts,
      getFailedAttempts]
  have e6 : r6 = (⟨false, some s!"Too many failed attempts. Try again in {m} minutes."⟩,
      ⟨sess, some 5, some (t5 + D), ⟨T, 5, D⟩⟩) := by
    simp [r6, e5, authenticate, isLockedOut, ht6, m]
  have e7 : r7.1.success = true := by
    have hni : ¬ (t7 < t5 + D) := by omega
    simp [r7, e6, authenticate, isLockedOut, hni, hc, clearFailedAttempts, createSession]
  exact ⟨by rw [e5], by rw [e5], by rw [e6], by rw [e6], e7⟩

/-- Claim C2 witness: five wrong passwords at times 0..400, a correct-password
attempt at 500 (still locked), then a correct-password attempt at 1000000
(past the 900000 ms lockout) succeeds. -/
theorem C2_lockout_threshold_witness :
    (authenticate c2hash "good" 1000000
      (authenticate c2hash "good" 500
        (authenticate c2hash "bad" 400
          (authenticate c2hash "bad" 300
            (authenticate c2hash "bad" 200
              (authenticate c2hash "bad" 100
                (authenticate c2hash "bad" 0
                  ⟨none, none, none, ⟨1800000, 5, 900000⟩⟩).2).2).2).2).2).2).1.success = true := by
  have h := C2_lockout_threshold c2hash none 1800000 900000
    "bad" "bad" "bad" "bad" "bad" "good" "bad" "bad" "bad" "bad" "bad"
    0 100 200 300 400 500 1000000
    rfl (by decide) rfl (by decide) rfl (by decide) rfl (by decide) rfl (by decide) rfl
    (by norm_num) (by norm_num)
  exact h.2.2.2.2

/-- Claim C3 counterexample: at `now = expiresAt = 100` the code's check
`Date.now() > session.expiresAt` does not fire, so `isAuthenticated` returns
`true` and the record is retained — refuting "whenever `now >= expiresAt`,
`isAuthenticated()` returns false and the expired record is deleted". -/
theorem C3_expiry_boundary_counterexample :
    (100 : Int) ≥ 100 ∧
    (isAuthenticated 100 sessionAtBoundary).1 = true ∧
    (isAuthenticated 100 sessionAtBoundary).2.session = some (.parsed ⟨true, 0, 100⟩) := by
  refine ⟨le_refl _, rfl, rfl⟩

/-- Claim C3 (amended): a stored (authenticated) session record is treated as
valid iff `now <= expiresAt`; whenever `now > expiresAt`, `isAuthenticated()`
returns false and the expired record is deleted as a side effect of the
query, and while `now <= expiresAt` the state is untouched. -/
theorem C3_session_valid_iff_not_past_expiry (st : AuthState) (s : AuthSession) (now : Int)
    (hs : st.session = some (.parsed s)) (hauth : s.isAuthenticated = true) :
    ((isAuthenticated now st).1 = true ↔ now ≤ s.expiresAt) ∧
    (s.expiresAt < now → (isAuthenticated now st).2.session = none) ∧
    (now ≤ s.expiresAt → (isAuthenticated now st).2 = st) := by
  by_cases hexp : now > s.expiresAt
  · refine ⟨?_, ?_, ?_⟩
    · simp [isAuthenticated, getSession, hs, hexp, logout]
    · intro _; simp [isAuthenticated, getSession, hs, hexp, logout]
    · intro hle; omega
  · refine ⟨?_, ?_, ?_⟩
    · simp [isAuthenticated, getSession, hs, hexp, hauth]
      omega
    · intro hlt; omega
    · intro _; simp [isAuthenticated, getSession, hs, hexp]

/-- Claim C3 witness: at time 50 the session expiring at 100 is valid and the
state untouched. -/
theorem C3_session_valid_witness :
    ((isAuthenticated 50 sessionAtBoundary).1 = true ↔ (50 : Int) ≤ 100) ∧
    ((100 : Int) < 50 → (isAuthenticated 50 sessionAtBoundary).2.session = none) ∧
    ((50 : Int) ≤ 100 → (isAuthenticated 50 sessionAtBoundary).2 = sessionAtBoundary) :=
  C3_session_valid_iff_not_past_expiry sessionAtBoundary ⟨true, 0, 100⟩ 50 rfl rfl

/-- Claim C4 counterexample: with all static fetches rejected and a parseable
local overlay `\x7b"projects":"x"\x7d`, `loadContent` succeeds (non-empty
cache) but `importContent(exportContent())` throws "projects must be an
array" instead of succeeding. -/
theorem C4_roundtrip_counterexample :
    ((loadContent allFetchesRejected badOverlayState).1.cache).isSome = true ∧
    ∃ t, exportContent (loadContent allFetchesRejected badOverlayState).1 = .ok t ∧
      (importContent t (loadContent allFetchesRejected badOverlayState).1).1 =
        .thrown "Invalid data: projects must be an array" := by
  exact ⟨rfl, _, rfl, rfl⟩

/-- Claim C4 (amended): when the cache is non-empty and the cached document
passes the structural validator (which a successful `loadContent` guarantees
unless the local overlay corrupted a section's type),
`importContent(exportContent())` succeeds and leaves `getCachedContent()`
unchanged. -/
theorem C4_roundtrip_validated (st : CMState) (c : Json) (hc : st.cache = some c)
    (hv : validatePortfolioData c = .ok ()) :
    ∃ t, exportContent st = .ok t ∧ (importContent t st).1 = .ok ∧
      (importContent t st).2.cache = st.cache := by
  refine ⟨.rendered 2 c, ?_, ?_, ?_⟩
  · simp [exportContent, hc, JSON_stringify]
  · simp [importContent, JSON_parse, hv]
  · simp [importContent, JSON_parse, hv, hc]

/-- Claim C4 witness: the round trip on a cache holding the zero-value default
document succeeds and preserves the cache. -/
theorem C4_roundtrip_validated_witness :
    ∃ t, exportContent ⟨none, some (portfolioToJson createDefaultPortfolioData)⟩ = .ok t ∧
      (importContent t ⟨none, some (portfolioToJson createDefaultPortfolioData)⟩).1 = .ok ∧
      (importContent t ⟨none, some (portfolioToJson createDefaultPortfolioData)⟩).2.cache =
        (⟨none, some (portfolioToJson createDefaultPortfolioData)⟩ : CMState).cache :=
  C4_roundtrip_validated _ (portfolioToJson createDefaultPortfolioData) rfl rfl

/-- Claim C5: structural validation succeeds only on a truthy `typeof`-object
value owning all six top-level keys with `projects`/`certificates`/
`socialLinks` arrays and `profile`/`resume`/`config` `typeof`-objects, and it
fails fast with a message naming the property:
`importContent` of `\x7b"profile":\x7b\x7d\x7d` throws "missing required
property 'projects'", and of an all-keys document whose `projects` is the
string `"x"` throws "projects must be an array". -/
theorem C5_validation_granularity :
    (∀ v, validatePortfolioData v = .ok () →
      isTruthy v = true ∧ jsTypeof v = "object" ∧
      hasProp v "profile" = true ∧ hasProp v "projects" = true ∧
      hasProp v "resume" = true ∧ hasProp v "certificates" = true ∧
      hasProp v "socialLinks" = true ∧ hasProp v "config" = true ∧
      jsTypeof (propVal v "profile") = "object" ∧ isArr (propVal v "projects") = true ∧
      jsTypeof (propVal v "resume") = "object" ∧ isArr (propVal v "certificates") = true ∧
      isArr (propVal v "socialLinks") = true ∧ jsTypeof (propVal v "config") = "object") ∧
    (∀ st, (importContent (.rendered 0 (.obj [("profile", .obj [])])) st).1 =
      .thrown "Invalid data: missing required property \x27projects\x27") ∧
    (∀ st, (importContent (.rendered 0 (.obj [("profile", .obj []),
        ("projects", .str "x"), ("resume", .obj []), ("certificates", .arr []),
        ("socialLinks", .arr []), ("config", .obj [])])) st).1 =
      .thrown "Invalid data: projects must be an array") := by
  refine ⟨?_, fun st => rfl, fun st => rfl⟩
  intro v h
  unfold validatePortfolioData at h
  split at h
  · simp at h
  · rename_i hcond
    split at h
    · simp at h
    · rename_i hfind
      rw [List.find?_eq_none] at hfind
      simp only [Bool.not_or, Bool.not_eq_true] at hcond
      repeat' split at h
      all_goals simp_all

/-- Claim C5 witness: the validator's success inversion applied to the default
document, and the missing-property message on a concrete store state. -/
theorem C5_validation_granularity_witness :
    isTruthy (portfolioToJson createDefaultPortfolioData) = true ∧
    (importContent (.rendered 0 (.obj [("profile", .obj [])])) ⟨none, none⟩).1 =
      .thrown "Invalid data: missing required property \x27projects\x27" := by
  exact ⟨(C5_validation_granularity.1 (portfolioToJson createDefaultPortfolioData) rfl).1,
    C5_validation_granularity.2.1 ⟨none, none⟩⟩

/-- Claim C6: while a lockout record with `now < lockedUntil` exists,
`authenticate` fails for any password with the remaining-minutes message —
the minute count being the ceiling of `(lockedUntil - now) / 60000` — and
leaves the whole state (in particular the stored attempt counter)
unchanged. -/
theorem C6_locked_out_fails_without_consuming_attempt
    (h : String → Except Unit String) (pw : String) (now lockedUntil : Int)
    (st : AuthState) (hl : st.lockout = some lockedUntil) (hnow : now < lockedUntil) :
    let r := jsCeilDiv (lockedUntil - now) 60000
    (authenticate h pw now st).1.success = false ∧
    (authenticate h pw now st).1.error =
      some s!"Too many failed attempts. Try again in {r} minutes." ∧
    (authenticate h pw now st).2 = st ∧
    lockedUntil - now ≤ 60000 * r ∧ 60000 * r < lockedUntil - now + 60000 := by
  intro r
  have hiso : isLockedOut now st = (true, st) := by
    simp [isLockedOut, hl, hnow]
  refine ⟨?_, ?_, ?_, ?_, ?_⟩
  · simp [authenticate, hiso]
  · simp [authenticate, hiso, hl, r]
  · simp [authenticate, hiso]
  · simp only [r]; unfold jsCeilDiv; omega
  · simp only [r]; unfold jsCeilDiv; omega

/-- Claim C6 witness: locked until 160000, a correct-password call at 100000
fails and leaves the state (attempt counter 2) unchanged. -/
theorem C6_locked_out_witness :
    (authenticate (fun _ => .ok PASSWORD_HASH) "admin123" 100000
      ⟨none, some 2, some 160000, ⟨1800000, 5, 900000⟩⟩).1.success = false ∧
    (authenticate (fun _ => .ok PASSWORD_HASH) "admin123" 100000
      ⟨none, some 2, some 160000, ⟨1800000, 5, 900000⟩⟩).2 =
      ⟨none, some 2, some 160000, ⟨1800000, 5, 900000⟩⟩ := by
  have h := C6_locked_out_fails_without_consuming_attempt
    (fun _ => .ok PASSWORD_HASH) "admin123" 100000 160000
    ⟨none, some 2, some 160000, ⟨1800000, 5, 900000⟩⟩ rfl (by norm_num)
  exact ⟨h.1, h.2.2.1⟩

/-- Claim C7: `getSessionTimeRemaining()` is never negative, is `0` with no
session record, is non-increasing across two threaded calls with a
non-decreasing clock and no intervening `extendSession`, and is exactly `0`
at or after the session's `expiresAt`. -/
theorem C7_time_remaining_nonneg_monotone :
    (∀ (now : Int) (st : AuthState), 0 ≤ (getSessionTimeRemaining now st).1) ∧
    (∀ (now : Int) (st : AuthState), st.session = none →
      (getSessionTimeRemaining now st).1 = 0) ∧
    (∀ (t1 t2 : Int) (st : AuthState), t1 ≤ t2 →
      (getSessionTimeRemaining t2 (getSessionTimeRemaining t1 st).2).1 ≤
        (getSessionTimeRemaining t1 st).1) ∧
    (∀ (now : Int) (st : AuthState) (s : AuthSession),
      st.session = some (.parsed s) → s.expiresAt ≤ now →
      (getSessionTimeRemaining now st).1 = 0) := by
  refine ⟨?_, ?_, ?_, ?_⟩
  · intro now st
    match hs : st.session with
    | none => simp [getSessionTimeRemaining, getSession, hs]
    | some .corrupt => simp [getSessionTimeRemaining, getSession, hs, logout]
    | some (.parsed s) =>
      by_cases hexp : now > s.expiresAt
      · simp [getSessionTimeRemaining, getSession, hs, hexp, logout]
      · simp [getSessionTimeRemaining, getSession, hs, hexp]
  · intro now st hs
    simp [getSessionTimeRemaining, getSession, hs]
  · intro t1 t2 st hle
    match hs : st.session with
    | none => simp [getSessionTimeRemaining, getSession, hs]
    | some .corrupt => simp [getSessionTimeRemaining, getSession, hs, logout]
    | some (.parsed s) =>
      by_cases h1 : t1 > s.expiresAt
      · simp [getSessionTimeRemaining, getSession, hs, h1, logout]
      · by_cases h2 : t2 > s.expiresAt
        · simp [getSessionTimeRemaining, getSession, hs, h1, h2, logout]
        · simp [getSessionTimeRemaining, getSession, hs, h1, h2]
          omega
  · intro now st s hs hexp
    by_cases h1 : now > s.expiresAt
    · simp [getSessionTimeRemaining, getSession, hs, h1, logout]
    · have : now = s.expiresAt := by omega
      simp [getSessionTimeRemaining, getSession, hs, h1, this]

/-- Claim C7 witness: the four properties at concrete times around a session
expiring at 100. -/
theorem C7_time_remaining_witness :
    (0 : Int) ≤ (getSessionTimeRemaining 50 sessionAtBoundary).1 ∧
    (getSessionTimeRemaining 0 (⟨none, none, none, ⟨1800000, 5, 900000⟩⟩ : AuthState)).1 = 0 ∧
    (getSessionTimeRemaining 60 (getSessionTimeRemaining 50 sessionAtBoundary).2).1 ≤
      (getSessionTimeRemaining 50 sessionAtBoundary).1 ∧
    (getSessionTimeRemaining 200 sessionAtBoundary).1 = 0 := by
  have h := C7_time_remaining_nonneg_monotone
  exact ⟨h.1 50 sessionAtBoundary, h.2.1 0 _ rfl, h.2.2.1 50 60 sessionAtBoundary (by norm_num),
    h.2.2.2 200 sessionAtBoundary ⟨true, 0, 100⟩ rfl (by norm_num)⟩

/-- Claim C8: `authenticate` is a total function of its inputs (the embedding
returns a result for every password — nothing escapes the call boundary), and
when the digest computation fails and no lockout is active the result is the
generic technical-error failure. -/
theorem C8_digest_failure_returns_generic_error
    (h : String → Except Unit String) (pw : String) (now : Int) (st : AuthState)
    (hfail : h pw = .error ()) (hnl : (isLockedOut now st).1 = false) :
    (authenticate h pw now st).1 =
      { success := false, error := some "Authentication failed due to technical error." } := by
  rcases hi : isLockedOut now st with ⟨locked, st2⟩
  rw [hi] at hnl
  simp only at hnl
  subst hnl
  simp [authenticate, hi, hfail]

/-- Claim C8 witness: a throwing digest on a clean state yields the generic
technical-error result. -/
theorem C8_digest_failure_witness :
    (authenticate (fun _ => .error ()) "pw" 0 ⟨none, none, none, ⟨1800000, 5, 900000⟩⟩).1 =
      { success := false, error := some "Authentication failed due to technical error." } :=
  C8_digest_failure_returns_generic_error (fun _ => .error ()) "pw" 0
    ⟨none, none, none, ⟨1800000, 5, 900000⟩⟩ rfl rfl

/-- Claim C9: `importContent` is atomic on failure — whenever it throws
(unparseable input or failed validation), the store's `portfolio_data` key
and the in-memory cache are left exactly as before the call. -/
theorem C9_import_atomic_on_failure (t : JSText) (st : CMState) (msg : String)
    (h : (importContent t st).1 = .thrown msg) : (importContent t st).2 = st := by
  unfold importContent at *
  cases hp : JSON_parse t with
  | error e => simp [hp]
  | ok data =>
    cases hv : validatePortfolioData data with
    | error m => simp [hp, hv]
    | ok u => simp [hp, hv] at h

/-- Claim C9 witness: importing unparseable text leaves the empty state
unchanged. -/
theorem C9_import_atomic_on_failure_witness :
    (importContent (.malformed "not json") ⟨none, none⟩).2 = (⟨none, none⟩ : CMState) :=
  C9_import_atomic_on_failure (.malformed "not json") ⟨none, none⟩
    "Invalid JSON data or structure" rfl

/-- Claim C10: the validator's object checks only test `typeof x ===
"object"`, which accepts `null` and arrays: a document with all six keys,
array sections arrays, and `profile`/`config` null with `resume` an array is
accepted, and `importContent` stores it. -/
theorem C10_validator_accepts_null_and_array_sections :
    jsTypeof Json.null = "object" ∧ jsTypeof (Json.arr []) = "object" ∧
    validatePortfolioData nullSectionsDoc = .ok () ∧
    importContent (.rendered 0 nullSectionsDoc) ⟨none, none⟩ =
      (.ok, ⟨some (.rendered 0 nullSectionsDoc), some nullSectionsDoc⟩) :=
  ⟨rfl, rfl, rfl, rfl⟩

end Portfolio
